import Mathlib

/-!
Shallow embedding of the Policy Automation and Event-Driven Governance
Engine of the AssetInfo repository: the policy condition evaluator and
action executor (server/services/policy/engine.ts, class PolicyEngine),
the Shadow-IT detector (same file, class ShadowITDetector), and the
access-review campaign engine (AccessReviewCampaignEngine).

External collaborators (the OAuth risk analyzer, the action handlers,
the revocation service and the persistence store) are modelled as
parameters or as explicit state, following the repository's own
description of them as external collaborators.  JavaScript dynamic
values appearing in policies and event payloads are modelled by the
inductive type `JsValue` below; coercing comparisons between operands
of different runtime types are modelled as false, since the engine only
compares homogeneous operands.
-/

namespace AssetInfo

/-- A JavaScript runtime value as it occurs in policy conditions and
event payloads: a number, a string, a boolean or null. -/
inductive JsValue where
  | num  (n : Int)
  | str  (s : String)
  | bool (b : Bool)
  | null
deriving DecidableEq, Repr, BEq

/-- One per-field predicate of a policy condition object, mirroring the
three runtime shapes `evaluateConditions` dispatches on: an array value
(membership test), an object value (operator map), or a scalar value
(strict equality). -/
inductive CondValue where
  | arr    (vs : List JsValue)
  | obj    (ops : List (String × JsValue))
  | scalar (v : JsValue)
deriving DecidableEq, Repr

/-- Strict equality `dataValue === opValue` where the left operand is a
payload lookup that may be undefined (`none`). -/
def jsStrictEq (d : Option JsValue) (v : JsValue) : Bool :=
  match d with
  | some x => x == v
  | none => false

/-- JavaScript `dataValue > opValue` on the operand shapes the engine
uses; an undefined left operand compares false. -/
def jsGt (d : Option JsValue) (v : JsValue) : Bool :=
  match d, v with
  | some (.num a), .num b => a > b
  | some (.str a), .str b => b < a
  | _, _ => false

/-- JavaScript `dataValue >= opValue`; an undefined left operand
compares false. -/
def jsGte (d : Option JsValue) (v : JsValue) : Bool :=
  match d, v with
  | some (.num a), .num b => a ≥ b
  | some (.str a), .str b => b < a || b == a
  | _, _ => false

/-- JavaScript `dataValue < opValue`; an undefined left operand
compares false. -/
def jsLt (d : Option JsValue) (v : JsValue) : Bool :=
  match d, v with
  | some (.num a), .num b => a < b
  | some (.str a), .str b => a < b
  | _, _ => false

/-- JavaScript `dataValue <= opValue`; an undefined left operand
compares false. -/
def jsLte (d : Option JsValue) (v : JsValue) : Bool :=
  match d, v with
  | some (.num a), .num b => a ≤ b
  | some (.str a), .str b => a < b || a == b
  | _, _ => false

/-- One iteration of the operator switch in `evaluateConditions`
(engine.ts lines 161-182): the six known operators test the payload
value; the `default` branch only logs a warning, so an unknown operator
imposes no constraint and the iteration passes. -/
def evalOp (op : String) (d : Option JsValue) (v : JsValue) : Bool :=
  if op == "$gt" then jsGt d v
  else if op == "$gte" then jsGte d v
  else if op == "$lt" then jsLt d v
  else if op == "$lte" then jsLte d v
  else if op == "$eq" then jsStrictEq d v
  else if op == "$ne" then !(jsStrictEq d v)
  else true

/-- Evaluation of a single top-level condition field against the
trigger data (one iteration of the outer loop of
`evaluateConditions`). -/
def evalField (triggerData : List (String × JsValue))
    (kv : String × CondValue) : Bool :=
  let d := triggerData.lookup kv.1
  match kv.2 with
  | .arr vs =>
      match d with
      | some x => vs.contains x
      | none => false
  | .obj ops => ops.all (fun p => evalOp p.1 d p.2)
  | .scalar v => jsStrictEq d v

/-- `PolicyEngine.evaluateConditions` (engine.ts lines 140-193): with
no conditions the policy always matches; otherwise every top-level
field must match (logical AND). -/
def evaluateConditions (conditions : Option (List (String × CondValue)))
    (triggerData : List (String × JsValue)) : Bool :=
  match conditions with
  | none => true
  | some cs => cs.all (fun kv => evalField triggerData kv)

/-- Whether an operator name is one the switch in `evaluateConditions`
handles. -/
def isKnownOp (op : String) : Bool :=
  op == "$gt" || op == "$gte" || op == "$lt" || op == "$lte" ||
    op == "$eq" || op == "$ne"

/-- Conditions with every unknown-operator entry removed from each
object-valued predicate. -/
def filterKnownConds (cs : List (String × CondValue)) :
    List (String × CondValue) :=
  cs.map (fun kv =>
    match kv.2 with
    | .obj ops => (kv.1, .obj (ops.filter (fun p => isKnownOp p.1)))
    | c => (kv.1, c))

theorem evalOp_unknown (op : String) (d : Option JsValue) (v : JsValue)
    (h : isKnownOp op = false) : evalOp op d v = true := by
  simp only [isKnownOp, Bool.or_eq_false_iff] at h
  obtain ⟨⟨⟨⟨⟨h1, h2⟩, h3⟩, h4⟩, h5⟩, h6⟩ := h
  simp [evalOp, h1, h2, h3, h4, h5, h6]

theorem evalField_filterKnown (triggerData : List (String × JsValue))
    (k : String) (c : CondValue) :
    evalField triggerData (k, match c with
      | .obj ops => CondValue.obj (ops.filter (fun p => isKnownOp p.1))
      | c => c) = evalField triggerData (k, c) := by
  cases c with
  | arr vs => rfl
  | scalar v => rfl
  | obj ops =>
      simp only [evalField]
      induction ops with
      | nil => rfl
      | cons p rest ih =>
          cases hk : isKnownOp p.1 with
          | true =>
              simp only [List.filter_cons, hk, if_pos, List.all_cons]
              rw [ih]
          | false =>
              simp only [List.filter_cons, hk, List.all_cons]
              simp only [Bool.false_eq_true, if_false]
              rw [ih, evalOp_unknown p.1 (triggerData.lookup k) p.2 hk,
                Bool.true_and]

/-- Claim C1 counterexample: the condition object
`riskScore : ($foo : 1)` contains only the unknown operator `$foo`, yet
`evaluateConditions` returns true on the empty payload — the field is
treated as matching, so a policy whose only condition uses an unknown
operator matches every payload (fail-open), contradicting the claim
that the field is treated as non-matching (fail-closed). -/
theorem evaluateConditions_unknown_op_fail_open :
    evaluateConditions
      (some [("riskScore", CondValue.obj [("$foo", JsValue.num 1)])])
      [] = true := by
  rfl

/-- Claim C1 (amended): unknown operator keys in an object-valued
condition are only logged and impose no constraint — deleting every
unknown-operator entry from the conditions leaves the result of
`evaluateConditions` unchanged on every payload, so a field whose
operators are all unknown always matches (fail-open, not
fail-closed). -/
theorem evaluateConditions_ignores_unknown_ops
    (cs : List (String × CondValue))
    (triggerData : List (String × JsValue)) :
    evaluateConditions (some (filterKnownConds cs)) triggerData =
      evaluateConditions (some cs) triggerData := by
  simp only [evaluateConditions, filterKnownConds]
  induction cs with
  | nil => rfl
  | cons kv rest ih =>
      simp only [List.map_cons, List.all_cons, ih]
      have h := evalField_filterKnown triggerData kv.1 kv.2
      cases kv with
      | mk k c =>
          cases c <;> simp_all

/-- The outcome of one action of a policy run, abstracting the action
registry lookup and the handler call for that action instance: the
registry has no handler for the action's type, or the handler returns a
structured result, or the handler throws. -/
inductive ActionOutcome where
  | noHandler
  | handlerResult (success : Bool) (data err : Option String)
  | handlerThrows (msg : String)
deriving DecidableEq, Repr

/-- One entry of the `results` array of a `PolicyExecutionResult`. -/
structure ActionResult where
  actionType : String
  success : Bool
  result : Option String
  error : Option String
deriving DecidableEq, Repr

/-- The mutable counters of the execution record built by
`executePolicy`. -/
structure ExecCounters where
  actionsExecuted : Nat
  actionsSucceeded : Nat
  actionsFailed : Nat
deriving DecidableEq, Repr

/-- One iteration of the action loop of `executePolicy` (engine.ts
lines 219-261).  The no-handler branch records a failure result and
increments `actionsFailed` but `continue`s before the
`actionsExecuted` increment; the other branches increment
`actionsExecuted`. -/
def execActionStep (t : ExecCounters) (a : String × ActionOutcome) :
    ExecCounters × ActionResult :=
  match a.2 with
  | .noHandler =>
      ({ t with actionsFailed := t.actionsFailed + 1 },
        { actionType := a.1, success := false, result := none,
          error := some "No handler found" })
  | .handlerResult success data err =>
      ({ actionsExecuted := t.actionsExecuted + 1,
         actionsSucceeded := t.actionsSucceeded + (if success then 1 else 0),
         actionsFailed := t.actionsFailed + (if success then 0 else 1) },
        { actionType := a.1, success := success, result := data, error := err })
  | .handlerThrows msg =>
      ({ t with actionsExecuted := t.actionsExecuted + 1,
                actionsFailed := t.actionsFailed + 1 },
        { actionType := a.1, success := false, result := none,
          error := some msg })

/-- The sequential action loop of `executePolicy`: threads the
execution counters through the actions and accumulates the per-action
results in order. -/
def execActions (actions : List (String × ActionOutcome)) (t : ExecCounters) :
    ExecCounters × List ActionResult :=
  match actions with
  | [] => (t, [])
  | a :: rest =>
      let s := execActionStep t a
      let r := execActions rest s.1
      (r.1, s.2 :: r.2)

/-- The final status computed by `executePolicy` (engine.ts lines
264-266): failures and no successes give `failed`, failures with some
successes give `partial`, no failures give `success`. -/
def finalStatus (t : ExecCounters) : String :=
  if t.actionsFailed > 0 then
    (if t.actionsSucceeded > 0 then "partial" else "failed")
  else "success"

/-- The structured result `executePolicy` returns to its caller. -/
structure PolicyExecutionResult where
  success : Bool
  actionsExecuted : Nat
  actionsSucceeded : Nat
  actionsFailed : Nat
  results : List ActionResult
deriving DecidableEq, Repr

/-- `PolicyEngine.executePolicy` (engine.ts lines 198-283), with each
action of the policy paired with the outcome of its registry lookup
and handler call.  Counters start at zero, the actions run
sequentially, and the returned `success` flag is the comparison of the
final status with `success`. -/
def executePolicy (actions : List (String × ActionOutcome)) :
    PolicyExecutionResult :=
  let (t, rs) := execActions actions
    { actionsExecuted := 0, actionsSucceeded := 0, actionsFailed := 0 }
  { success := finalStatus t == "success",
    actionsExecuted := t.actionsExecuted,
    actionsSucceeded := t.actionsSucceeded,
    actionsFailed := t.actionsFailed,
    results := rs }

/-- The number of actions of a run whose registry lookup found no
handler. -/
def countNoHandler (actions : List (String × ActionOutcome)) : Nat :=
  (actions.filter (fun a => a.2 == ActionOutcome.noHandler)).length

theorem countNoHandler_cons (ty : String) (o : ActionOutcome)
    (rest : List (String × ActionOutcome)) :
    countNoHandler ((ty, o) :: rest) =
      (if o = ActionOutcome.noHandler then 1 else 0) + countNoHandler rest := by
  cases o <;> simp [countNoHandler, List.filter_cons] <;> omega

theorem execActions_counters (actions : List (String × ActionOutcome))
    (t : ExecCounters) :
    let t2 := (execActions actions t).1
    t2.actionsSucceeded + t2.actionsFailed + t.actionsExecuted =
      t2.actionsExecuted + countNoHandler actions +
        (t.actionsSucceeded + t.actionsFailed) := by
  induction actions generalizing t with
  | nil =>
      simp only [execActions, countNoHandler, List.filter_nil,
        List.length_nil]
      omega
  | cons a rest ih =>
      obtain ⟨ty, outcome⟩ := a
      have h := ih (execActionStep t (ty, outcome)).1
      have hstep : (execActions ((ty, outcome) :: rest) t).1 =
          (execActions rest (execActionStep t (ty, outcome)).1).1 := rfl
      rw [hstep, countNoHandler_cons]
      cases outcome with
      | noHandler =>
          simp [execActionStep] at h ⊢
          omega
      | handlerResult success data err =>
          cases success <;> simp [execActionStep] at h ⊢ <;> omega
      | handlerThrows msg =>
          simp [execActionStep] at h ⊢
          omega

/-- Claim C2 counterexample: a policy with a single action whose type
has no registered handler yields `actionsExecuted = 0`,
`actionsSucceeded = 0`, `actionsFailed = 1`, so
`actionsExecuted = actionsSucceeded + actionsFailed` fails: the
no-handler branch records the failure but skips the
`actionsExecuted` increment. -/
theorem executePolicy_sum_counterexample :
    (executePolicy [("quarantine", ActionOutcome.noHandler)]).actionsExecuted = 0 ∧
    (executePolicy [("quarantine", ActionOutcome.noHandler)]).actionsSucceeded = 0 ∧
    (executePolicy [("quarantine", ActionOutcome.noHandler)]).actionsFailed = 1 := by
  refine ⟨rfl, rfl, rfl⟩

/-- Claim C2 (amended): for every policy run,
`actionsSucceeded + actionsFailed = actionsExecuted + n` where `n` is
the number of actions with no registered handler — `actionsExecuted`
counts only actions whose handler lookup succeeded, so the claimed sum
invariant holds exactly when every action has a registered handler. -/
theorem executePolicy_counter_sum (actions : List (String × ActionOutcome)) :
    (executePolicy actions).actionsSucceeded +
        (executePolicy actions).actionsFailed =
      (executePolicy actions).actionsExecuted + countNoHandler actions := by
  have h := execActions_counters actions
    { actionsExecuted := 0, actionsSucceeded := 0, actionsFailed := 0 }
  simp only [executePolicy]
  simp at h
  omega

/-- Claim C6 counterexample: a run whose only action has no registered
handler finishes with status `failed` while `actionsExecuted = 0`, so
status `failed` does not imply `actionsExecuted > 0` and the claimed
equivalence fails. -/
theorem finalStatus_failed_counterexample :
    finalStatus (execActions [("quarantine", ActionOutcome.noHandler)]
        { actionsExecuted := 0, actionsSucceeded := 0,
          actionsFailed := 0 }).1 = "failed" ∧
    (executePolicy [("quarantine", ActionOutcome.noHandler)]).actionsExecuted
      = 0 := by
  refine ⟨rfl, rfl⟩

/-- Claim C6 (amended): the final status is `success` exactly when no
action failed, `partial` exactly when some action succeeded and some
failed, and `failed` exactly when no action succeeded and at least one
failed — the `failed` case is characterised by the failure counter, not
by `actionsExecuted`, which stays zero for no-handler failures. -/
theorem finalStatus_characterisation
    (actions : List (String × ActionOutcome)) :
    let t := (execActions actions
      { actionsExecuted := 0, actionsSucceeded := 0,
        actionsFailed := 0 }).1
    (finalStatus t = "success" ↔ t.actionsFailed = 0) ∧
    (finalStatus t = "partial" ↔
      t.actionsSucceeded > 0 ∧ t.actionsFailed > 0) ∧
    (finalStatus t = "failed" ↔
      t.actionsSucceeded = 0 ∧ t.actionsFailed > 0) := by
  intro t
  unfold finalStatus
  by_cases hf : t.actionsFailed > 0 <;> by_cases hs : t.actionsSucceeded > 0 <;>
    simp [hf, hs] <;> omega

/-- JavaScript truthiness of an optional string field: absent and empty
strings are falsy. -/
def truthyStr (o : Option String) : Bool :=
  match o with
  | some s => !(s == "")
  | none => false

/-- ASCII lowercasing of one character, as `toLowerCase` acts on the
ASCII range; non-ASCII characters are left unchanged and are stripped
by `normalizeAppName` either way. -/
def charLower (c : Char) : Char :=
  if 'A' ≤ c && c ≤ 'Z' then Char.ofNat (c.toNat + 32) else c

/-- `ShadowITDetector.normalizeAppName` (engine.ts lines 358-364):
lowercase the name and strip every character that is not a lowercase
letter or digit. -/
def normalizeAppName (s : String) : String :=
  String.mk ((s.toList.map charLower).filter
    (fun c => ('a' ≤ c && c ≤ 'z') || ('0' ≤ c && c ≤ '9')))

/-- A discovered application as delivered by an identity-provider
connector, restricted to the fields the detector logic reads. -/
structure DiscoveredApp where
  name : String
  vendor : Option String
  websiteUrl : Option String
  permissions : List String
deriving DecidableEq, Repr

/-- A SaaS-app catalog entry, restricted to the fields the detector
logic reads and writes. -/
structure SaasApp where
  id : String
  tenantId : String
  name : String
  vendor : Option String
  approvalStatus : String
  riskScore : Nat
  riskFactors : List String
deriving DecidableEq, Repr

/-- JavaScript `s.includes(t)` on strings, as list infix. -/
def strIncludes (s t : String) : Bool := decide (t.toList <:+: s.toList)

/-- `ShadowITDetector.findMatchingApp` (engine.ts lines 369-410): three
match tiers tried in order — exact normalized-name match, then
normalized-vendor match when the discovered app carries a vendor, then
substring containment with both normalized names at least four
characters long.  First match wins. -/
def findMatchingApp (catalog : List SaasApp) (d : DiscoveredApp) :
    Option SaasApp :=
  let normalizedName := normalizeAppName d.name
  match catalog.find? (fun a => normalizeAppName a.name == normalizedName) with
  | some a => some a
  | none =>
    let vendorMatch :=
      if truthyStr d.vendor then
        let normalizedVendor := normalizeAppName (d.vendor.getD "")
        catalog.find? (fun a =>
          truthyStr a.vendor &&
            (normalizeAppName (a.vendor.getD "") == normalizedVendor))
      else none
    match vendorMatch with
    | some a => some a
    | none =>
      catalog.find? (fun a =>
        let an := normalizeAppName a.name
        (strIncludes an normalizedName || strIncludes normalizedName an) &&
          an.length ≥ 4 && normalizedName.length ≥ 4)

/-- The output of the external permission-risk analyzer
(`OAuthRiskAnalyzer.assessPermissions`), which the risk scorer
consumes; the analyzer itself is an external collaborator. -/
structure PermissionRisk where
  riskScore : Nat
  reasons : List String
deriving DecidableEq, Repr

/-- `ShadowITDetector.calculateRiskScore` (engine.ts lines 415-448):
additive factors — the analyzer's permission risk when the app carries
permissions, +10 for an unknown vendor, +5 for a missing website URL,
+10 for more than ten permission scopes — capped at 100, with a
human-readable factor string per contribution. -/
def calculateRiskScore (permRisk : PermissionRisk) (app : DiscoveredApp) :
    Nat × List String :=
  let hasPerms := !app.permissions.isEmpty
  let vendorUnknown := !truthyStr app.vendor || (app.vendor.getD "" == "Unknown")
  let noWebsite := !truthyStr app.websiteUrl
  let excessive := app.permissions.length > 10
  let score := (if hasPerms then permRisk.riskScore else 0) +
    (if vendorUnknown then 10 else 0) +
    (if noWebsite then 5 else 0) +
    (if excessive then 10 else 0)
  let factors :=
    (if hasPerms then
      permRisk.reasons.map (fun r => "High-risk permission: " ++ r)
     else []) ++
    (if vendorUnknown then ["Unknown vendor"] else []) ++
    (if noWebsite then ["No website URL available"] else []) ++
    (if excessive then
      ["Excessive permissions (" ++ toString app.permissions.length ++
        " scopes)"]
     else [])
  (min score 100, factors)

/-- The classification `ShadowITDetector.analyzeApp` produces. -/
structure ShadowITAnalysisResult where
  isUnapproved : Bool
  isNewDiscovery : Bool
  riskScore : Nat
  riskFactors : List String
  matchedAppId : Option String
  recommendedAction : String
deriving DecidableEq, Repr

/-- `ShadowITDetector.analyzeApp` (engine.ts lines 453-511): no catalog
match gives a new unapproved discovery with a score-driven recommended
action; a match with approval status `denied` boosts the score by 30
(capped) and recommends `deny`; a `pending` match recommends `review`;
any other match is treated as approved. -/
def analyzeApp (catalog : List SaasApp) (permRisk : PermissionRisk)
    (d : DiscoveredApp) : ShadowITAnalysisResult :=
  let sf := calculateRiskScore permRisk d
  match findMatchingApp catalog d with
  | none =>
      { isUnapproved := true, isNewDiscovery := true, riskScore := sf.1,
        riskFactors := "App not in approved catalog" :: sf.2,
        matchedAppId := none,
        recommendedAction :=
          if sf.1 ≥ 75 then "investigate"
          else if sf.1 ≥ 50 then "review" else "approve" }
  | some m =>
      if m.approvalStatus == "denied" then
        { isUnapproved := true, isNewDiscovery := false,
          riskScore := min (sf.1 + 30) 100,
          riskFactors := "App explicitly denied" :: sf.2,
          matchedAppId := some m.id, recommendedAction := "deny" }
      else if m.approvalStatus == "pending" then
        { isUnapproved := true, isNewDiscovery := false, riskScore := sf.1,
          riskFactors := "App approval pending" :: sf.2,
          matchedAppId := some m.id, recommendedAction := "review" }
      else
        { isUnapproved := false, isNewDiscovery := false, riskScore := sf.1,
          riskFactors := sf.2, matchedAppId := some m.id,
          recommendedAction := "approve" }

/-- The risk-level bucket derived in `processApp` (engine.ts lines
565-567). -/
def riskLevelOf (score : Nat) : String :=
  if score ≥ 75 then "critical"
  else if score ≥ 50 then "high"
  else if score ≥ 25 then "medium" else "low"

/-- An event published on the in-process event bus, with the payload
fields the detector and the campaign engine emit. -/
structure EmittedEvent where
  topic : String
  tenantId : String
  appId : String
  appName : String
  approvalStatus : Option String
  riskLevel : String
  riskScore : Nat
  scopes : Option (List String)
deriving DecidableEq, Repr

/-- The catalog row inserted for a brand-new discovery (engine.ts lines
539-556): `approvalStatus` is the literal `pending`. -/
def newSaasApp (tenantId : String) (d : DiscoveredApp)
    (analysis : ShadowITAnalysisResult) (newId : String) : SaasApp :=
  { id := newId, tenantId := tenantId, name := d.name, vendor := d.vendor,
    approvalStatus := "pending", riskScore := analysis.riskScore,
    riskFactors := analysis.riskFactors }

/-- `storage.updateSaasApp` on the catalog: refresh the risk score and
factors of the row with the given id. -/
def updateSaasApp (catalog : List SaasApp) (id : String) (riskScore : Nat)
    (riskFactors : List String) : List SaasApp :=
  catalog.map (fun a =>
    if a.id == id then
      { a with riskScore := riskScore, riskFactors := riskFactors }
    else a)

/-- The result of processing one discovered app: the `created` flag and
app id returned to the caller, the catalog after persistence, and the
events published on the bus. -/
structure ProcessAppResult where
  created : Bool
  appId : String
  catalog : List SaasApp
  events : List EmittedEvent
deriving DecidableEq, Repr

/-- `ShadowITDetector.processApp` (engine.ts lines 516-593): a matched
app is updated in place and publishes nothing; an unmatched app is
inserted with `approvalStatus` `pending`, and when its classification
is unapproved an `app.discovered` event is published with the derived
risk-level bucket, plus an `oauth.risky_permission` event when the app
carries permissions and its score is at least 50. -/
def processApp (tenantId : String) (catalog : List SaasApp)
    (permRisk : PermissionRisk) (d : DiscoveredApp) (newId : String) :
    ProcessAppResult :=
  let analysis := analyzeApp catalog permRisk d
  match analysis.matchedAppId with
  | some mid =>
      { created := false, appId := mid,
        catalog := updateSaasApp catalog mid analysis.riskScore
          analysis.riskFactors,
        events := [] }
  | none =>
      let createdApp := newSaasApp tenantId d analysis newId
      let riskLevel := riskLevelOf analysis.riskScore
      let events :=
        if analysis.isUnapproved then
          { topic := "app.discovered", tenantId := tenantId,
            appId := createdApp.id, appName := createdApp.name,
            approvalStatus := some createdApp.approvalStatus,
            riskLevel := riskLevel, riskScore := analysis.riskScore,
            scopes := none } ::
          (if !d.permissions.isEmpty && analysis.riskScore ≥ 50 then
            [{ topic := "oauth.risky_permission", tenantId := tenantId,
               appId := createdApp.id, appName := createdApp.name,
               approvalStatus := none, riskLevel := riskLevel,
               riskScore := analysis.riskScore,
               scopes := some d.permissions }]
           else [])
        else []
      { created := true, appId := newId, catalog := catalog ++ [createdApp],
        events := events }

/-- The events a brand-new unapproved discovery publishes: the
`app.discovered` event with the derived risk-level bucket, plus the
`oauth.risky_permission` event when the app carries permissions and
scores at least 50. -/
def discoveredEvents (tenantId : String) (d : DiscoveredApp)
    (newId : String) (a : ShadowITAnalysisResult) : List EmittedEvent :=
  { topic := "app.discovered", tenantId := tenantId, appId := newId,
    appName := d.name, approvalStatus := some "pending",
    riskLevel := riskLevelOf a.riskScore, riskScore := a.riskScore,
    scopes := none } ::
  (if !d.permissions.isEmpty && a.riskScore ≥ 50 then
    [{ topic := "oauth.risky_permission", tenantId := tenantId,
       appId := newId, appName := d.name, approvalStatus := none,
       riskLevel := riskLevelOf a.riskScore, riskScore := a.riskScore,
       scopes := some d.permissions }]
   else [])

/-- Claim C3 counterexample: a discovered app named Slack matches a
denied catalog entry, its analysis is classified unapproved, yet
`processApp` takes the update branch and publishes no event at all —
contradicting the claim that an `app.discovered` event is published for
every unapproved classification, including denied catalog matches. -/
theorem processApp_matched_denied_counterexample :
    (processApp "t1"
      [{ id := "app-1", tenantId := "t1", name := "slack", vendor := none,
         approvalStatus := "denied", riskScore := 0, riskFactors := [] }]
      { riskScore := 0, reasons := [] }
      { name := "Slack", vendor := none, websiteUrl := none,
        permissions := [] }
      "new-1").events = [] ∧
    (analyzeApp
      [{ id := "app-1", tenantId := "t1", name := "slack", vendor := none,
         approvalStatus := "denied", riskScore := 0, riskFactors := [] }]
      { riskScore := 0, reasons := [] }
      { name := "Slack", vendor := none, websiteUrl := none,
        permissions := [] }).isUnapproved = true := by
  refine ⟨by decide, by decide⟩

/-- Claim C3 (amended): `processApp` publishes the `app.discovered`
event with the derived risk-level bucket (critical at 75, high at 50,
medium at 25, else low) exactly when the app has no catalog match — in
which case it is always classified unapproved — and publishes nothing
for a matched app, even one whose catalog entry is denied or
pending. -/
theorem processApp_events_characterisation (tenantId : String)
    (catalog : List SaasApp) (permRisk : PermissionRisk)
    (d : DiscoveredApp) (newId : String) :
    (processApp tenantId catalog permRisk d newId).events =
      (if findMatchingApp catalog d = none then
        discoveredEvents tenantId d newId (analyzeApp catalog permRisk d)
       else []) := by
  unfold processApp
  cases h : findMatchingApp catalog d with
  | none => simp [analyzeApp, h, discoveredEvents, newSaasApp]
  | some m =>
      simp only [analyzeApp, h]
      by_cases h1 : m.approvalStatus == "denied" <;>
        by_cases h2 : m.approvalStatus == "pending" <;>
          simp [h1, h2]

/-- Claim C7: whenever a discovered app has no catalog match,
`processApp` inserts exactly one new catalog row, built by
`newSaasApp`, whose `approvalStatus` is the literal `pending` — for
every analyzer output and hence every computed risk score. -/
theorem processApp_new_app_pending (tenantId : String)
    (catalog : List SaasApp) (permRisk : PermissionRisk)
    (d : DiscoveredApp) (newId : String)
    (h : findMatchingApp catalog d = none) :
    (processApp tenantId catalog permRisk d newId).created = true ∧
    (processApp tenantId catalog permRisk d newId).catalog =
      catalog ++
        [newSaasApp tenantId d (analyzeApp catalog permRisk d) newId] ∧
    (newSaasApp tenantId d (analyzeApp catalog permRisk d)
      newId).approvalStatus = "pending" := by
  unfold processApp
  simp [analyzeApp, h, newSaasApp]

/-- Witness for claim C7 at a concrete high-risk discovery with an
empty catalog. -/
theorem processApp_new_app_pending_witness :
    (processApp "t1" [] { riskScore := 95, reasons := [] }
      { name := "Acme Docs", vendor := none, websiteUrl := none,
        permissions := [] } "new-1").created = true ∧
    (processApp "t1" [] { riskScore := 95, reasons := [] }
      { name := "Acme Docs", vendor := none, websiteUrl := none,
        permissions := [] } "new-1").catalog =
      [] ++
        [newSaasApp "t1"
          { name := "Acme Docs", vendor := none, websiteUrl := none,
            permissions := [] }
          (analyzeApp [] { riskScore := 95, reasons := [] }
            { name := "Acme Docs", vendor := none, websiteUrl := none,
              permissions := [] }) "new-1"] ∧
    (newSaasApp "t1"
      { name := "Acme Docs", vendor := none, websiteUrl := none,
        permissions := [] }
      (analyzeApp [] { riskScore := 95, reasons := [] }
        { name := "Acme Docs", vendor := none, websiteUrl := none,
          permissions := [] }) "new-1").approvalStatus = "pending" :=
  processApp_new_app_pending "t1" [] { riskScore := 95, reasons := [] }
    { name := "Acme Docs", vendor := none, websiteUrl := none,
      permissions := [] } "new-1" rfl

/-- One entry of a discovery sync batch: the discovered app, the
analyzer output for its permissions, the id the store would assign on
insert, and fault-injection flags for the two throwing call sites the
`processApps` loop guards — the `analyzeApp` call (the analyzer or the
store throwing during analysis) and the persistence call inside
`processApp` (`updateSaasApp`/`createSaasApp` throwing). -/
structure AppSyncItem where
  app : DiscoveredApp
  permRisk : PermissionRisk
  newId : String
  analyzeThrows : Bool
  persistThrows : Bool
deriving DecidableEq, Repr

/-- The accumulator of the `processApps` loop: the evolving catalog and
the three counters. -/
structure BatchState where
  catalog : List SaasApp
  appsCreated : Nat
  appsUpdated : Nat
  shadowITDetected : Nat
deriving DecidableEq, Repr

/-- The loop body of `ShadowITDetector.processApps` (engine.ts lines
606-624): analyze the app (a throw is caught and skips the entry),
increment `shadowITDetected` when the analysis is unapproved, then run
`processApp` (a throw is caught, leaving the catalog and the
created/updated counters untouched — but `shadowITDetected` has
already been incremented), and on success increment `appsCreated` or
`appsUpdated` according to the returned flag. -/
def processAppsLoop (tenantId : String) (items : List AppSyncItem)
    (st : BatchState) : BatchState :=
  match items with
  | [] => st
  | i :: rest =>
      if i.analyzeThrows then processAppsLoop tenantId rest st
      else
        let analysis := analyzeApp st.catalog i.permRisk i.app
        let st1 := { st with shadowITDetected :=
          st.shadowITDetected + (if analysis.isUnapproved then 1 else 0) }
        if i.persistThrows then processAppsLoop tenantId rest st1
        else
          let r := processApp tenantId st.catalog i.permRisk i.app i.newId
          if r.created then
            processAppsLoop tenantId rest
              { st1 with catalog := r.catalog,
                         appsCreated := st1.appsCreated + 1 }
          else
            processAppsLoop tenantId rest
              { st1 with catalog := r.catalog,
                         appsUpdated := st1.appsUpdated + 1 }

/-- The structured result `processApps` returns to its caller. -/
structure ProcessAppsResult where
  appsProcessed : Nat
  appsCreated : Nat
  appsUpdated : Nat
  shadowITDetected : Nat
  catalog : List SaasApp
deriving DecidableEq, Repr

/-- `ShadowITDetector.processApps` (engine.ts lines 598-632): fold the
batch through the per-app loop starting from zero counters;
`appsProcessed` is always the length of the input batch. -/
def processApps (tenantId : String) (catalog : List SaasApp)
    (items : List AppSyncItem) : ProcessAppsResult :=
  let st := processAppsLoop tenantId items
    { catalog := catalog, appsCreated := 0, appsUpdated := 0,
      shadowITDetected := 0 }
  { appsProcessed := items.length, appsCreated := st.appsCreated,
    appsUpdated := st.appsUpdated,
    shadowITDetected := st.shadowITDetected, catalog := st.catalog }

theorem processAppsLoop_created_updated (tenantId : String)
    (items : List AppSyncItem) (st : BatchState) :
    (processAppsLoop tenantId items st).appsCreated +
        (processAppsLoop tenantId items st).appsUpdated =
      st.appsCreated + st.appsUpdated +
        (items.filter
          (fun i => !i.analyzeThrows && !i.persistThrows)).length := by
  induction items generalizing st with
  | nil => simp [processAppsLoop]
  | cons i rest ih =>
      cases ha : i.analyzeThrows <;> cases hp : i.persistThrows <;>
        cases hc : (processApp tenantId st.catalog i.permRisk i.app
            i.newId).created <;>
          simp [processAppsLoop, List.filter_cons, ha, hp, hc, ih] <;>
            omega

/-- Claim C5 counterexample: a batch of one unapproved app whose
persistence step throws yields `appsCreated = 0`, `appsUpdated = 0`
but `shadowITDetected = 1`: the loop increments `shadowITDetected`
after the analysis and before the persistence call, so an app whose
processing threw still contributes to that counter. -/
theorem processApps_throw_counts_shadow :
    processApps "t1" []
      [{ app := { name := "Acme Docs", vendor := none, websiteUrl := none,
                  permissions := [] },
         permRisk := { riskScore := 0, reasons := [] },
         newId := "new-1", analyzeThrows := false,
         persistThrows := true }] =
      { appsProcessed := 1, appsCreated := 0, appsUpdated := 0,
        shadowITDetected := 1, catalog := [] } := by
  decide

/-- Claim C5 (amended): an error on one app never aborts the batch
(`appsProcessed` is always the full batch length and later entries are
still folded); `appsCreated + appsUpdated` counts exactly the apps
whose processing completed without a throw; but `shadowITDetected`
counts every app whose analysis succeeded with an unapproved
classification, even when the subsequent persistence step threw. -/
theorem processApps_partial_failure (tenantId : String)
    (catalog : List SaasApp) (items : List AppSyncItem) :
    (processApps tenantId catalog items).appsProcessed = items.length ∧
    (processApps tenantId catalog items).appsCreated +
        (processApps tenantId catalog items).appsUpdated =
      (items.filter
        (fun i => !i.analyzeThrows && !i.persistThrows)).length ∧
    (∀ i : AppSyncItem,
      (processApps tenantId catalog [i]).shadowITDetected =
        if !i.analyzeThrows &&
            (analyzeApp catalog i.permRisk i.app).isUnapproved then 1
        else 0) := by
  refine ⟨rfl, ?_, ?_⟩
  · have h := processAppsLoop_created_updated tenantId items
      { catalog := catalog, appsCreated := 0, appsUpdated := 0,
        shadowITDetected := 0 }
    simpa [processApps] using h
  · intro i
    cases ha : i.analyzeThrows with
    | true => simp [processApps, processAppsLoop, ha]
    | false =>
        cases hp : i.persistThrows with
        | true =>
            cases hu : (analyzeApp catalog i.permRisk i.app).isUnapproved <;>
              simp [processApps, processAppsLoop, ha, hp, hu]
        | false =>
            cases hu : (analyzeApp catalog i.permRisk i.app).isUnapproved <;>
              cases hc : (processApp tenantId catalog i.permRisk i.app
                  i.newId).created <;>
                simp [processApps, processAppsLoop, ha, hp, hu, hc]

/-- `PolicyEngine.canExecutePolicy` (engine.ts lines 113-135).  Times
are unix milliseconds.  The cooldown check runs only when
`cooldownMinutes` is truthy (non-zero) and `lastExecutedAt` is set, and
blocks when the time since the last execution is under
`cooldownMinutes` in milliseconds; the daily-limit block of the source
reads `maxExecutionsPerDay` but performs no check, so it never
blocks. -/
def canExecutePolicy (cooldownMinutes : Nat) (lastExecutedAt : Option Int)
    (now : Int) : Bool :=
  let cooldownBlocks :=
    match lastExecutedAt with
    | some t =>
        (cooldownMinutes != 0) &&
          decide (now - t < (cooldownMinutes : Int) * 60 * 1000)
    | none => false
  if cooldownBlocks then false else true

/-- Claim C8: with cooldown `N` minutes and last execution at time `T`,
evaluating `canExecutePolicy` at `T` plus `M` minutes returns false
exactly when `M < N` and true once `N ≤ M` (also for `N = 0`, where
the falsy cooldown skips the check entirely). -/
theorem canExecutePolicy_cooldown (n m : Nat) (t : Int) :
    canExecutePolicy n (some t) (t + (m : Int) * 60 * 1000) =
      decide (n ≤ m) := by
  simp only [canExecutePolicy]
  by_cases h : n ≤ m
  · have hb : ¬(t + (m : Int) * 60 * 1000 - t < (n : Int) * 60 * 1000) := by
      omega
    simp [h, hb]
  · have hn : n ≠ 0 := by omega
    have hb : t + (m : Int) * 60 * 1000 - t < (n : Int) * 60 * 1000 := by
      omega
    simp [h, hb, hn]
    omega

/-- A review item of an access-review campaign, restricted to the
fields the campaign engine reads and writes. -/
structure ReviewItem where
  id : String
  campaignId : String
  userId : String
  appId : String
  decision : String
  decisionNotes : Option String
  reviewerId : Option String
  reviewerName : Option String
  executionStatus : String
  executionError : Option String
deriving DecidableEq, Repr

/-- The immutable decision record `submitDecision` writes for the audit
trail. -/
structure DecisionRecord where
  campaignId : String
  reviewItemId : String
  decision : String
  decisionNotes : Option String
  reviewerId : String
  reviewerName : String
  executionStatus : String
deriving DecidableEq, Repr

/-- An access-review campaign row, restricted to the fields the engine
reads and writes. -/
structure Campaign where
  id : String
  name : String
  status : String
  totalItems : Nat
  reviewedItems : Nat
  approvedItems : Nat
  revokedItems : Nat
  deferredItems : Nat
deriving DecidableEq, Repr

/-- The persistence store as seen by the campaign engine: review items,
decision records and campaigns.  Store writes are modelled as state
updates; the only fallible collaborator is the revocation call, whose
outcome is passed in explicitly. -/
structure ARState where
  items : List ReviewItem
  decisions : List DecisionRecord
  campaigns : List Campaign
deriving DecidableEq, Repr

/-- `storage.updateAccessReviewItem`: apply a field update to the item
with the given id. -/
def updateReviewItem (st : ARState) (itemId : String)
    (f : ReviewItem → ReviewItem) : ARState :=
  { st with items := st.items.map (fun i => if i.id == itemId then f i else i) }

/-- `AccessReviewCampaignEngine.updateCampaignProgress` (part_004 lines
364-378): recompute the campaign's aggregate counters from its
items. -/
def updateCampaignProgress (st : ARState) (campaignId : String) : ARState :=
  let cItems := st.items.filter (fun i => i.campaignId == campaignId)
  { st with campaigns := st.campaigns.map (fun c =>
      if c.id == campaignId then
        { c with
          reviewedItems :=
            (cItems.filter (fun i => !(i.decision == "pending"))).length,
          approvedItems :=
            (cItems.filter (fun i => i.decision == "approved")).length,
          revokedItems :=
            (cItems.filter (fun i => i.decision == "revoked")).length,
          deferredItems :=
            (cItems.filter (fun i => i.decision == "deferred")).length }
      else c) }

/-- `AccessReviewCampaignEngine.executeRevocation` (part_004 lines
336-359): call the revocation collaborator; on success set the item's
`executionStatus` to `completed`, on a caught error set it to `failed`
with the error message captured.  The caught error never escapes. -/
def executeRevocation (st : ARState) (item : ReviewItem)
    (revokeOutcome : Except String Unit) : ARState :=
  match revokeOutcome with
  | .ok _ =>
      updateReviewItem st item.id
        (fun i => { i with executionStatus := "completed" })
  | .error e =>
      updateReviewItem st item.id
        (fun i => { i with executionStatus := "failed",
                           executionError := some e })

/-- `AccessReviewCampaignEngine.submitDecision` (part_004 lines
267-310): look up the item (throwing when absent), persist the
decision onto it, append a decision record with `executionStatus`
`pending` to the audit trail, recompute the campaign counters, and for
a `revoked` decision synchronously run `executeRevocation`. -/
def submitDecision (st : ARState) (itemId : String) (decision : String)
    (notes : Option String) (reviewerId reviewerName : String)
    (revokeOutcome : Except String Unit) : Except String ARState :=
  match st.items.find? (fun i => i.id == itemId) with
  | none => .error "Review item not found"
  | some item =>
      let st1 := updateReviewItem st itemId (fun i =>
        { i with decision := decision, decisionNotes := notes,
                 reviewerId := some reviewerId,
                 reviewerName := some reviewerName })
      let st2 := { st1 with decisions := st1.decisions ++
        [{ campaignId := item.campaignId, reviewItemId := itemId,
           decision := decision, decisionNotes := notes,
           reviewerId := reviewerId, reviewerName := reviewerName,
           executionStatus := "pending" }] }
      let st3 := updateCampaignProgress st2 item.campaignId
      if decision == "revoked" then
        .ok (executeRevocation st3 item revokeOutcome)
      else .ok st3

/-- The topics `PolicyEngine.initializeEventHandlers` subscribes to
(engine.ts lines 55-63). -/
def policyEngineSubscribedTopics : List String :=
  ["app.discovered", "license.unused", "oauth.risky_permission",
   "user.offboarded", "contract.renewal_approaching", "budget.exceeded"]

/-- The payload of the campaign-completion event emitted by
`completeCampaign`. -/
structure CampaignEvent where
  topic : String
  tenantId : String
  campaignId : String
  campaignName : String
  totalItems : Nat
  reviewedItems : Nat
  revokedItems : Nat
deriving DecidableEq, Repr

/-- `AccessReviewCampaignEngine.completeCampaign` (part_004 lines
415-445): look up the campaign (throwing when absent), mark it
completed, and emit `access_review.completed` on the event bus with
the campaign's aggregate counters. -/
def completeCampaign (st : ARState) (tenantId campaignId : String) :
    Except String (ARState × List CampaignEvent) :=
  match st.campaigns.find? (fun c => c.id == campaignId) with
  | none => .error "Campaign not found"
  | some c =>
      let st1 := { st with campaigns := st.campaigns.map (fun x =>
        if x.id == campaignId then { x with status := "completed" } else x) }
      .ok (st1,
        [{ topic := "access_review.completed", tenantId := tenantId,
           campaignId := campaignId, campaignName := c.name,
           totalItems := c.totalItems, reviewedItems := c.reviewedItems,
           revokedItems := c.revokedItems }])

/-- The terminal execution status `executeRevocation` assigns for a
given revocation outcome. -/
def revokedOutcomeStatus (out : Except String Unit) : String :=
  match out with
  | .ok _ => "completed"
  | .error _ => "failed"

/-- Claim C9: after `submitDecision` with decision `revoked` returns
successfully, the submitted item's `executionStatus` is `completed`
when the revocation collaborator succeeded and `failed` with the error
message captured when it threw — never `pending`. -/
theorem submitDecision_revoked_terminal (st : ARState) (itemId : String)
    (notes : Option String) (reviewerId reviewerName : String)
    (out : Except String Unit) (st2 : ARState)
    (h : submitDecision st itemId "revoked" notes reviewerId reviewerName
      out = .ok st2) :
    ∀ i ∈ st2.items, i.id = itemId →
      i.executionStatus = revokedOutcomeStatus out ∧
      i.executionStatus ≠ "pending" ∧
      (∀ e, out = .error e → i.executionError = some e) := by
  unfold submitDecision at h
  cases hf : st.items.find? (fun i => i.id == itemId) with
  | none => rw [hf] at h; exact absurd h (by simp)
  | some item =>
      have hid : item.id = itemId := by
        have hp := List.find?_some hf
        simpa using hp
      rw [hf] at h
      simp only [beq_self_eq_true, if_true] at h
      injection h with h2
      subst h2
      intro i hi hiid
      rcases out with u | e
      · simp only [executeRevocation, updateReviewItem,
          updateCampaignProgress, List.mem_map] at hi
        obtain ⟨j, hj, rfl⟩ := hi
        by_cases hji : j.id = itemId
        · have hb : (j.id == itemId) = true := by simpa using hji
          simp [hb, hid, revokedOutcomeStatus]
        · have hb : (j.id == itemId) = false := by simpa using hji
          have hbi : (j.id == item.id) = false := by
            rw [hid]; exact hb
          simp only [hb, hbi, if_false, Bool.false_eq_true] at hiid ⊢
          exact absurd hiid hji
      · simp only [executeRevocation, updateReviewItem,
          updateCampaignProgress, List.mem_map] at hi
        obtain ⟨j, hj, rfl⟩ := hi
        by_cases hji : j.id = itemId
        · have hb : (j.id == itemId) = true := by simpa using hji
          simp [hb, hid, revokedOutcomeStatus]
        · have hb : (j.id == itemId) = false := by simpa using hji
          have hbi : (j.id == item.id) = false := by
            rw [hid]; exact hb
          simp only [hb, hbi, if_false, Bool.false_eq_true] at hiid ⊢
          exact absurd hiid hji

/-- A sample review item used to witness the campaign-engine
theorems. -/
def sampleReviewItem : ReviewItem :=
  { id := "i1", campaignId := "c1", userId := "u1", appId := "a1",
    decision := "pending", decisionNotes := none, reviewerId := none,
    reviewerName := none, executionStatus := "pending",
    executionError := none }

/-- A sample engine state with one pending review item. -/
def sampleARState : ARState :=
  { items := [sampleReviewItem], decisions := [], campaigns := [] }

/-- The review item of the sample state after the revoked decision
whose revocation threw. -/
def sampleRevokedFailedItem : ReviewItem :=
  { id := "i1", campaignId := "c1", userId := "u1", appId := "a1",
    decision := "revoked", decisionNotes := none,
    reviewerId := some "r1", reviewerName := some "Rita",
    executionStatus := "failed", executionError := some "boom" }

/-- The audit record the sample revoked submission appends. -/
def sampleRevokedDecisionRecord : DecisionRecord :=
  { campaignId := "c1", reviewItemId := "i1", decision := "revoked",
    decisionNotes := none, reviewerId := "r1", reviewerName := "Rita",
    executionStatus := "pending" }

/-- The state the sample revoked submission with a throwing revocation
produces: the item is marked `failed` with the error captured, and one
pending audit record is appended. -/
def sampleRevokedFailedState : ARState :=
  { items := [sampleRevokedFailedItem],
    decisions := [sampleRevokedDecisionRecord], campaigns := [] }

/-- Witness for claim C9: submitting a `revoked` decision whose
revocation throws leaves the item `failed` with the error captured. -/
theorem submitDecision_revoked_terminal_witness :
    submitDecision sampleARState "i1" "revoked" none "r1" "Rita"
      (Except.error "boom") = .ok sampleRevokedFailedState ∧
    (∀ i ∈ sampleRevokedFailedState.items, i.id = "i1" →
      i.executionStatus = revokedOutcomeStatus (Except.error "boom") ∧
      i.executionStatus ≠ "pending" ∧
      (∀ e, (Except.error "boom" : Except String Unit) = .error e →
        i.executionError = some e)) :=
  ⟨by rfl,
    submitDecision_revoked_terminal sampleARState "i1" none "r1" "Rita"
      (Except.error "boom") sampleRevokedFailedState (by rfl)⟩

/-- Claim C10: every successful `submitDecision` appends exactly one
decision record to the audit trail, created with `executionStatus`
`pending`, and leaves every pre-existing decision record untouched —
in particular, on the `revoked` path `executeRevocation` writes the
revocation outcome only onto the review item, so the appended decision
record still carries `executionStatus` `pending` afterwards. -/
theorem submitDecision_audit_record_pending (st : ARState)
    (itemId decision : String) (notes : Option String)
    (reviewerId reviewerName : String) (out : Except String Unit)
    (st2 : ARState)
    (h : submitDecision st itemId decision notes reviewerId reviewerName
      out = .ok st2) :
    ∃ item : ReviewItem,
      st.items.find? (fun i => i.id == itemId) = some item ∧
      st2.decisions = st.decisions ++
        [{ campaignId := item.campaignId, reviewItemId := itemId,
           decision := decision, decisionNotes := notes,
           reviewerId := reviewerId, reviewerName := reviewerName,
           executionStatus := "pending" }] := by
  unfold submitDecision at h
  cases hf : st.items.find? (fun i => i.id == itemId) with
  | none => rw [hf] at h; exact absurd h (by simp)
  | some item =>
      rw [hf] at h
      refine ⟨item, rfl, ?_⟩
      by_cases hd : (decision == "revoked") = true
      · simp only [hd, if_true] at h
        injection h with h2
        subst h2
        rcases out with u | e <;>
          simp [executeRevocation, updateReviewItem,
            updateCampaignProgress]
      · simp only [hd, if_false, Bool.false_eq_true] at h
        injection h with h2
        subst h2
        simp [updateReviewItem, updateCampaignProgress]

/-- The review item of the sample state after the approved decision. -/
def sampleApprovedItem : ReviewItem :=
  { id := "i1", campaignId := "c1", userId := "u1", appId := "a1",
    decision := "approved", decisionNotes := none,
    reviewerId := some "r1", reviewerName := some "Rita",
    executionStatus := "pending", executionError := none }

/-- The audit record the sample approved submission appends. -/
def sampleApprovedDecisionRecord : DecisionRecord :=
  { campaignId := "c1", reviewItemId := "i1", decision := "approved",
    decisionNotes := none, reviewerId := "r1", reviewerName := "Rita",
    executionStatus := "pending" }

/-- The state the sample approved submission produces. -/
def sampleApprovedState : ARState :=
  { items := [sampleApprovedItem],
    decisions := [sampleApprovedDecisionRecord], campaigns := [] }

/-- Witness for claim C10: an `approved` decision appends one pending
audit record to the sample state. -/
theorem submitDecision_audit_record_pending_witness :
    submitDecision sampleARState "i1" "approved" none "r1" "Rita"
      (Except.ok ()) = .ok sampleApprovedState ∧
    (∃ item : ReviewItem,
      sampleARState.items.find? (fun i => i.id == "i1") = some item ∧
      sampleApprovedState.decisions = sampleARState.decisions ++
        [{ campaignId := item.campaignId, reviewItemId := "i1",
           decision := "approved", decisionNotes := none,
           reviewerId := "r1", reviewerName := "Rita",
           executionStatus := "pending" }]) :=
  ⟨by rfl,
    submitDecision_audit_record_pending sampleARState "i1" "approved"
      none "r1" "Rita" (Except.ok ()) sampleApprovedState (by rfl)⟩

/-- A sample active campaign. -/
def sampleCampaign : Campaign :=
  { id := "c1", name := "Q1 review", status := "active",
    totalItems := 0, reviewedItems := 0, approvedItems := 0,
    revokedItems := 0, deferredItems := 0 }

/-- A sample engine state holding one active campaign. -/
def sampleCampaignState : ARState :=
  { items := [], decisions := [], campaigns := [sampleCampaign] }

/-- The sample campaign after completion. -/
def sampleCompletedCampaign : Campaign :=
  { id := "c1", name := "Q1 review", status := "completed",
    totalItems := 0, reviewedItems := 0, approvedItems := 0,
    revokedItems := 0, deferredItems := 0 }

/-- The sample engine state after completing the campaign. -/
def sampleCompletedState : ARState :=
  { items := [], decisions := [], campaigns := [sampleCompletedCampaign] }

/-- The completion event the sample campaign emits. -/
def sampleCompletionEvent : CampaignEvent :=
  { topic := "access_review.completed", tenantId := "t1",
    campaignId := "c1", campaignName := "Q1 review",
    totalItems := 0, reviewedItems := 0, revokedItems := 0 }

/-- Claim C4 counterexample: completing a campaign emits the topic
`access_review.completed`, but that topic is not among the topics the
Policy Engine subscribes to in `initializeEventHandlers`, so the
emitted event has no policy-engine handler and the claimed
discovery-to-remediation loop is not closed. -/
theorem completeCampaign_topic_unsubscribed_counterexample :
    completeCampaign sampleCampaignState "t1" "c1" =
      .ok (sampleCompletedState, [sampleCompletionEvent]) ∧
    ¬ ("access_review.completed" ∈ policyEngineSubscribedTopics) := by
  refine ⟨by rfl, by decide⟩

/-- Claim C4 (amended): `completeCampaign` emits exactly one event,
with topic `access_review.completed`, but the Policy Engine subscribes
only to the six topics listed in `initializeEventHandlers`, none of
which is `access_review.completed`, so the event is not handled by the
Policy Engine. -/
theorem completeCampaign_emits_unhandled_topic (st : ARState)
    (tenantId campaignId : String) (st2 : ARState)
    (evs : List CampaignEvent)
    (h : completeCampaign st tenantId campaignId = .ok (st2, evs)) :
    evs.map (fun e => e.topic) = ["access_review.completed"] ∧
    ∀ e ∈ evs, ¬ (e.topic ∈ policyEngineSubscribedTopics) := by
  unfold completeCampaign at h
  cases hf : st.campaigns.find? (fun c => c.id == campaignId) with
  | none => rw [hf] at h; exact absurd h (by simp)
  | some c =>
      rw [hf] at h
      injection h with h2
      rw [Prod.ext_iff] at h2
      obtain ⟨hst, hev⟩ := h2
      subst hev
      refine ⟨rfl, ?_⟩
      intro e he
      simp only [List.mem_singleton] at he
      subst he
      simp [policyEngineSubscribedTopics]

/-- Witness for the amended claim C4 at the sample campaign state. -/
theorem completeCampaign_emits_unhandled_topic_witness :
    ([sampleCompletionEvent].map (fun e => e.topic) =
      ["access_review.completed"]) ∧
    ∀ e ∈ [sampleCompletionEvent],
      ¬ (e.topic ∈ policyEngineSubscribedTopics) :=
  completeCampaign_emits_unhandled_topic sampleCampaignState "t1" "c1"
    sampleCompletedState [sampleCompletionEvent] (by rfl)

end AssetInfo
